import Mathlib

/-!
Verification development for the audiogram explorer dashboard
(`audiogram_streamlitapp.py`).

The script is a linear pipeline over one in-memory table:
load the CSV into `audiogram_df`, filter it by a sidebar multi-select on
the `Category` column (`isin`), compute a group-mean summary
(`groupby("Category")[...].mean().round(1).reset_index()`), and build
three radar vectors for one patient picked by `PatientID`
(`df[df["PatientID"] == pid].iloc[0]`, zero-filled axes, closed loop,
`np.linspace(0, 2*pi, 6, endpoint=False)` angles).

The embedding below models a dataframe as a `List` of records, numeric
columns as exact rationals, pandas `Series.unique()` as first-occurrence
deduplication, the ascending group order of `groupby` as an insertion
sort on the keys, and `.round(1)` as round-half-to-even at one decimal.
`.iloc[0]` on a possibly-empty selection is the fallible `head?`.
-/

namespace Audiogram

/-- One row of `audiogram_df`: the fixed CSV schema used by the script. -/
structure AudiogramRecord where
  PatientID : String
  Category : String
  PTA_Right : ℚ
  PTA_Left : ℚ
  SRT_Right : ℚ
  SRT_Left : ℚ
  SDT_Right : ℚ
  SDT_Left : ℚ
  WRS_Right : ℚ
  WRS_Left : ℚ
  deriving DecidableEq

/-- pandas `Series.unique()`: distinct values in first-occurrence order. -/
def pdUnique : List String → List String
  | [] => []
  | x :: xs => x :: (pdUnique xs).filter (fun y => decide (y ≠ x))

/-- Line 52-56: the options of the `Category` multiselect,
`audiogram_df["Category"].unique()`. -/
def categoryOptions (D : List AudiogramRecord) : List String :=
  pdUnique (D.map (fun r => r.Category))

/-- Line 52-56: the default of the `Category` multiselect,
`default=audiogram_df["Category"].unique()`. -/
def categoryDefault (D : List AudiogramRecord) : List String :=
  pdUnique (D.map (fun r => r.Category))

/-- Line 58: `filtered_df = audiogram_df[audiogram_df["Category"].isin(category)]`. -/
def filteredDf (D : List AudiogramRecord) (sel : List String) : List AudiogramRecord :=
  D.filter (fun r => decide (r.Category ∈ sel))

/-- Ascending sort on strings, the key order `groupby` uses (`sort=True`). -/
def sortStrings (l : List String) : List String :=
  List.insertionSort (fun a b => a ≤ b) l

/-- Arithmetic mean of a list of rationals (sum divided by length). -/
def listMean (l : List ℚ) : ℚ :=
  l.sum / (l.length : ℚ)

/-- Round-half-to-even to the nearest integer, the tie rule of
`numpy.round` that pandas `.round` delegates to. -/
def roundHalfEven (q : ℚ) : ℤ :=
  if q - ⌊q⌋ < 1 / 2 then ⌊q⌋
  else if 1 / 2 < q - ⌊q⌋ then ⌊q⌋ + 1
  else if Even ⌊q⌋ then ⌊q⌋ else ⌊q⌋ + 1

/-- `.round(1)`: round to one decimal place. -/
def round1 (q : ℚ) : ℚ :=
  (roundHalfEven (q * 10) : ℚ) / 10

/-- Mean of one numeric column over a list of rows. -/
def colMean (rows : List AudiogramRecord) (col : AudiogramRecord → ℚ) : ℚ :=
  listMean (rows.map col)

/-- One row of `summary_df`: a group key and the four metric means. -/
structure SummaryRow where
  Category : String
  PTA_Right : ℚ
  PTA_Left : ℚ
  WRS_Right : ℚ
  WRS_Left : ℚ
  deriving DecidableEq

/-- Line 64: `summary_df = filtered_df.groupby("Category")[["PTA_Right",
"PTA_Left", "WRS_Right", "WRS_Left"]].mean().round(1).reset_index()`.
`groupby` keys are the distinct `Category` values present, in ascending
order; each cell is the group mean rounded once to one decimal. -/
def summaryDf (l : List AudiogramRecord) : List SummaryRow :=
  (sortStrings (pdUnique (l.map (fun r => r.Category)))).map (fun g =>
    let rows := l.filter (fun r => decide (r.Category = g))
    { Category := g
      PTA_Right := round1 (colMean rows (fun r => r.PTA_Right))
      PTA_Left := round1 (colMean rows (fun r => r.PTA_Left))
      WRS_Right := round1 (colMean rows (fun r => r.WRS_Right))
      WRS_Left := round1 (colMean rows (fun r => r.WRS_Left)) })

/-- Line 73: the options of the patient selectbox,
`audiogram_df["PatientID"].unique()`. -/
def patientOptions (D : List AudiogramRecord) : List String :=
  pdUnique (D.map (fun r => r.PatientID))

/-- Line 74: `patient_data = audiogram_df[audiogram_df["PatientID"] ==
patient_id].iloc[0]`; `.iloc[0]` on an empty selection raises, so the
result is an `Option`. -/
def patientData (D : List AudiogramRecord) (pid : String) : Option AudiogramRecord :=
  (D.filter (fun r => decide (r.PatientID = pid))).head?

/-- Line 77: the six angular axis labels. -/
def axisLabels : List String :=
  ["PTA_Right", "PTA_Left", "SRT_Right", "SRT_Left", "SDT_Right", "SDT_Left"]

/-- Lines 88 and 93: `pta_plot = [PTA_Right, PTA_Left, 0, 0, 0, 0]` then
`pta_plot += pta_plot[:1]`. -/
def ptaPlot (p : AudiogramRecord) : List ℚ :=
  let base := [p.PTA_Right, p.PTA_Left, 0, 0, 0, 0]
  base ++ base.take 1

/-- Lines 89 and 94: `srt_plot = [0, 0, SRT_Right, SRT_Left, 0, 0]` then
`srt_plot += srt_plot[:1]`. -/
def srtPlot (p : AudiogramRecord) : List ℚ :=
  let base := [0, 0, p.SRT_Right, p.SRT_Left, 0, 0]
  base ++ base.take 1

/-- Lines 90 and 95: `sdt_plot = [0, 0, 0, 0, SDT_Right, SDT_Left]` then
`sdt_plot += sdt_plot[:1]`. -/
def sdtPlot (p : AudiogramRecord) : List ℚ :=
  let base := [0, 0, 0, 0, p.SDT_Right, p.SDT_Left]
  base ++ base.take 1

/-- Lines 96-98: `N = len(categories)`;
`angles = np.linspace(0, 2*np.pi, N, endpoint=False).tolist()`;
`angles += angles[:1]`. `linspace` with `endpoint=False` yields
`start + i * (stop - start) / N` for `i = 0 .. N-1`. -/
noncomputable def anglesList : List ℝ :=
  let base := (List.range axisLabels.length).map
    (fun i => (0 : ℝ) + (i : ℝ) * ((2 * Real.pi - 0) / (axisLabels.length : ℝ)))
  base ++ base.take 1

/-- Everything the script renders in one pass, as pure data. -/
structure AppRender where
  fullTable : List AudiogramRecord
  categoryOpts : List String
  filteredTable : List AudiogramRecord
  summaryTable : List SummaryRow
  patientOpts : List String
  radarPTA : Option (List ℚ)
  radarSRT : Option (List ℚ)
  radarSDT : Option (List ℚ)

/-- One top-to-bottom run of the script for a loaded dataset `D`, a
multiselect state `sel` and a selectbox state `pid`: the full table shown
at line 46, the filtered table (line 60), the summary (line 65), and the
radar vectors (lines 88-95), which are built from the full `audiogram_df`,
not from `filtered_df`. -/
def runApp (D : List AudiogramRecord) (sel : List String) (pid : String) : AppRender :=
  let filtered := filteredDf D sel
  let summary := summaryDf filtered
  let p := patientData D pid
  { fullTable := D
    categoryOpts := categoryOptions D
    filteredTable := filtered
    summaryTable := summary
    patientOpts := patientOptions D
    radarPTA := p.map ptaPlot
    radarSRT := p.map srtPlot
    radarSDT := p.map sdtPlot }

/-- Sample rows used to instantiate the theorems with hypotheses. -/
def sampleRecord1 : AudiogramRecord :=
  { PatientID := "P1", Category := "Mild", PTA_Right := 10, PTA_Left := 15,
    SRT_Right := 12, SRT_Left := 14, SDT_Right := 8, SDT_Left := 9,
    WRS_Right := 96, WRS_Left := 92 }

def sampleRecord2 : AudiogramRecord :=
  { PatientID := "P2", Category := "Severe", PTA_Right := 70, PTA_Left := 65,
    SRT_Right := 68, SRT_Left := 66, SDT_Right := 60, SDT_Left := 58,
    WRS_Right := 40, WRS_Left := 44 }

/-- A second row sharing `PatientID` with `sampleRecord1`. -/
def sampleRecord3 : AudiogramRecord :=
  { PatientID := "P1", Category := "Moderate", PTA_Right := 35, PTA_Left := 30,
    SRT_Right := 33, SRT_Left := 31, SDT_Right := 25, SDT_Left := 24,
    WRS_Right := 80, WRS_Left := 84 }

theorem mem_pdUnique {x : String} : ∀ {l : List String}, x ∈ pdUnique l ↔ x ∈ l
  | [] => Iff.rfl
  | a :: t => by
    simp only [pdUnique, List.mem_cons, List.mem_filter, decide_eq_true_eq]
    constructor
    · rintro (rfl | ⟨h, _⟩)
      · exact Or.inl rfl
      · exact Or.inr (mem_pdUnique.1 h)
    · rintro (rfl | h)
      · exact Or.inl rfl
      · by_cases hx : x = a
        · exact Or.inl hx
        · exact Or.inr ⟨mem_pdUnique.2 h, hx⟩

theorem nodup_pdUnique : ∀ l : List String, (pdUnique l).Nodup
  | [] => List.nodup_nil
  | a :: t => by
    simp only [pdUnique]
    refine List.Nodup.cons ?_ ((nodup_pdUnique t).filter _)
    intro hmem
    rcases List.mem_filter.1 hmem with ⟨_, hne⟩
    simp at hne

/-- Claim C1: for every loaded record set `D` and every selection `S` of
`Category` values, the filter returns exactly the rows of `D` whose
`Category` is in `S`, preserving row order and multiplicity; the
multiselect offers the distinct `Category` values of the full dataset
(each once) and its default is that same list. -/
theorem C1_category_filter_spec (D : List AudiogramRecord) (S : List String) :
    (filteredDf D S).Sublist D
    ∧ (∀ r : AudiogramRecord,
        (filteredDf D S).count r = if r.Category ∈ S then D.count r else 0)
    ∧ (categoryOptions D).Nodup
    ∧ (∀ c : String, c ∈ categoryOptions D ↔ c ∈ D.map (fun r => r.Category))
    ∧ categoryDefault D = categoryOptions D := by
  refine ⟨List.filter_sublist _, ?_, nodup_pdUnique _, fun c => mem_pdUnique, rfl⟩
  intro r
  by_cases hr : r.Category ∈ S
  · simp only [hr, if_true]
    exact List.count_filter (by simp [hr])
  · simp only [hr, if_false]
    refine List.count_eq_zero.2 ?_
    intro hmem
    rcases List.mem_filter.1 hmem with ⟨_, hp⟩
    simp [hr] at hp

/-- Claim C4: an empty `Category` selection filters down to zero rows, the
rendered filtered table is those zero rows, and the group-mean summary of
the zero-row set is the empty summary (no group rows, nothing raised). -/
theorem C4_empty_selection (D : List AudiogramRecord) (pid : String) :
    filteredDf D [] = []
    ∧ (runApp D [] pid).filteredTable = []
    ∧ summaryDf (filteredDf D []) = []
    ∧ (runApp D [] pid).summaryTable = [] := by
  have h : filteredDf D [] = [] := by simp [filteredDf]
  have hs : summaryDf (filteredDf D []) = [] := by rw [h]; rfl
  exact ⟨h, h, hs, hs⟩

/-- Claim C5: for every record set `D` and every non-empty selection `S`,
filtering twice by `S` gives the same rows as filtering once. -/
theorem C5_filter_idempotent (D : List AudiogramRecord) (S : List String)
    (_hS : S ≠ []) :
    filteredDf (filteredDf D S) S = filteredDf D S := by
  simp [filteredDf, List.filter_filter]

theorem C5_filter_idempotent_witness :
    (["Mild"] : List String) ≠ []
    ∧ filteredDf (filteredDf [sampleRecord1, sampleRecord2] ["Mild"]) ["Mild"]
      = filteredDf [sampleRecord1, sampleRecord2] ["Mild"] :=
  ⟨by decide, C5_filter_idempotent [sampleRecord1, sampleRecord2] ["Mild"] (by decide)⟩

/-- Claim C8: no pipeline stage mutates upstream data: after a full run,
the full table the app shows is exactly the loaded dataset, the filtered
table is exactly the filter's output (aggregation left it unchanged), the
summary is computed from that same filtered set, and the option lists
come from the loaded dataset. -/
theorem C8_pipeline_no_mutation (D : List AudiogramRecord) (sel : List String)
    (pid : String) :
    (runApp D sel pid).fullTable = D
    ∧ (runApp D sel pid).filteredTable = filteredDf D sel
    ∧ (runApp D sel pid).summaryTable = summaryDf (filteredDf D sel)
    ∧ (runApp D sel pid).categoryOpts = categoryOptions D
    ∧ (runApp D sel pid).patientOpts = patientOptions D :=
  ⟨rfl, rfl, rfl, rfl, rfl⟩

/-- Claim C10: the radar chart is independent of the `Category` filter:
for any two selections (empty included) and the same `PatientID`, the
patient options offered and the three radar vectors are identical, since
both read the full unfiltered dataset. -/
theorem C10_radar_filter_independent (D : List AudiogramRecord)
    (S₁ S₂ : List String) (pid : String) :
    (runApp D S₁ pid).patientOpts = (runApp D S₂ pid).patientOpts
    ∧ (runApp D S₁ pid).radarPTA = (runApp D S₂ pid).radarPTA
    ∧ (runApp D S₁ pid).radarSRT = (runApp D S₂ pid).radarSRT
    ∧ (runApp D S₁ pid).radarSDT = (runApp D S₂ pid).radarSDT :=
  ⟨rfl, rfl, rfl, rfl⟩

/-- Claim C7: radar patient selection is by exact `PatientID` match, and
when several rows share the selected identifier the first one in dataset
order is used: if `D` splits as `pre ++ d :: post` with `d` matching and
nothing in `pre` matching, the lookup returns `d`. -/
theorem C7_patient_first_match (D : List AudiogramRecord) (pid : String)
    (pre post : List AudiogramRecord) (d : AudiogramRecord)
    (hD : D = pre ++ d :: post) (hd : d.PatientID = pid)
    (hpre : ∀ x ∈ pre, x.PatientID ≠ pid) :
    patientData D pid = some d := by
  subst hD
  unfold patientData
  rw [List.filter_append]
  have hpre' : pre.filter (fun r => decide (r.PatientID = pid)) = [] := by
    apply List.filter_eq_nil_iff.2
    intro x hx
    simp [hpre x hx]
  rw [hpre']
  simp [hd]

theorem C7_patient_first_match_witness :
    ([sampleRecord1, sampleRecord3] : List AudiogramRecord)
      = [] ++ sampleRecord1 :: [sampleRecord3]
    ∧ sampleRecord1.PatientID = "P1"
    ∧ patientData [sampleRecord1, sampleRecord3] "P1" = some sampleRecord1 :=
  ⟨rfl, rfl,
    C7_patient_first_match [sampleRecord1, sampleRecord3] "P1" [] [sampleRecord3]
      sampleRecord1 rfl rfl (by simp)⟩

/-- Claim C9: the radar lookup can never miss: every `PatientID` offered
by the selectbox is a `PatientID` of some row of the full dataset, and
looking it up in that same full dataset returns a row (the
`iloc[0]` out-of-bounds branch is unreachable). -/
theorem C9_patient_lookup_total (D : List AudiogramRecord) (pid : String)
    (h : pid ∈ patientOptions D) :
    pid ∈ D.map (fun r => r.PatientID)
    ∧ (patientData D pid).isSome = true := by
  rw [patientOptions, mem_pdUnique] at h
  refine ⟨h, ?_⟩
  rcases List.mem_map.1 h with ⟨r, hr, hpid⟩
  have hmem : r ∈ D.filter (fun r => decide (r.PatientID = pid)) :=
    List.mem_filter.2 ⟨hr, by simp [hpid]⟩
  unfold patientData
  simp only [List.head?_isSome]
  exact List.ne_nil_of_mem hmem

theorem C9_patient_lookup_total_witness :
    "P1" ∈ patientOptions [sampleRecord1, sampleRecord2]
    ∧ "P1" ∈ ([sampleRecord1, sampleRecord2].map (fun r => r.PatientID))
    ∧ (patientData [sampleRecord1, sampleRecord2] "P1").isSome = true :=
  ⟨by decide,
    C9_patient_lookup_total [sampleRecord1, sampleRecord2] "P1" (by decide)⟩

theorem summaryDf_categories (l : List AudiogramRecord) :
    (summaryDf l).map (fun s => s.Category)
      = sortStrings (pdUnique (l.map (fun r => r.Category))) := by
  unfold summaryDf
  rw [List.map_map]
  exact List.map_id'' (fun g => rfl) _

/-- Claim C2: the summary table has one row per distinct `Category` value
present in the filtered set, in ascending order, and each metric cell is
the unweighted arithmetic mean (sum over count) of that group's rows,
rounded to one decimal exactly once. -/
theorem C2_group_summary (l : List AudiogramRecord) :
    ((summaryDf l).map (fun s => s.Category)).Sorted (fun a b => a ≤ b)
    ∧ ((summaryDf l).map (fun s => s.Category)).Nodup
    ∧ (∀ c : String,
        c ∈ (summaryDf l).map (fun s => s.Category) ↔ c ∈ l.map (fun r => r.Category))
    ∧ summaryDf l = ((summaryDf l).map (fun s => s.Category)).map (fun g =>
        let rows := l.filter (fun r => decide (r.Category = g))
        { Category := g
          PTA_Right := round1 ((rows.map (fun r => r.PTA_Right)).sum / (rows.length : ℚ))
          PTA_Left := round1 ((rows.map (fun r => r.PTA_Left)).sum / (rows.length : ℚ))
          WRS_Right := round1 ((rows.map (fun r => r.WRS_Right)).sum / (rows.length : ℚ))
          WRS_Left := round1 ((rows.map (fun r => r.WRS_Left)).sum / (rows.length : ℚ)) }) := by
  rw [summaryDf_categories]
  refine ⟨List.sorted_insertionSort _ _, ?_, ?_, ?_⟩
  · exact (List.perm_insertionSort _ _).nodup_iff.2 (nodup_pdUnique _)
  · intro c
    rw [sortStrings, List.mem_insertionSort, mem_pdUnique]
  · unfold summaryDf
    apply List.map_congr_left
    intro g _
    simp [colMean, listMean]

/-- Claim C6: group-mean aggregation is invariant under row reordering:
any permutation of the input rows produces the same summary table. -/
theorem C6_summary_perm_invariant (l₁ l₂ : List AudiogramRecord)
    (h : l₁.Perm l₂) : summaryDf l₁ = summaryDf l₂ := by
  have hmap : (l₁.map (fun r => r.Category)).Perm (l₂.map (fun r => r.Category)) :=
    h.map _
  have hkeys : sortStrings (pdUnique (l₁.map (fun r => r.Category)))
      = sortStrings (pdUnique (l₂.map (fun r => r.Category))) := by
    apply List.eq_of_perm_of_sorted ?_ (List.sorted_insertionSort _ _)
      (List.sorted_insertionSort _ _)
    refine (List.perm_insertionSort _ _).trans
      (List.Perm.trans ?_ (List.perm_insertionSort _ _).symm)
    refine (List.perm_ext_iff_of_nodup (nodup_pdUnique _) (nodup_pdUnique _)).2 ?_
    intro a
    rw [mem_pdUnique, mem_pdUnique]
    exact hmap.mem_iff
  unfold summaryDf
  rw [hkeys]
  apply List.map_congr_left
  intro g _
  have hrows : (l₁.filter (fun r => decide (r.Category = g))).Perm
      (l₂.filter (fun r => decide (r.Category = g))) := h.filter _
  have hlen := hrows.length_eq
  have hsum : ∀ col : AudiogramRecord → ℚ,
      ((l₁.filter (fun r => decide (r.Category = g))).map col).sum
        = ((l₂.filter (fun r => decide (r.Category = g))).map col).sum :=
    fun col => (hrows.map col).sum_eq
  simp only [colMean, listMean, List.length_map, hlen, hsum]

theorem C6_summary_perm_invariant_witness :
    ([sampleRecord1, sampleRecord2] : List AudiogramRecord).Perm
      [sampleRecord2, sampleRecord1]
    ∧ summaryDf [sampleRecord1, sampleRecord2]
      = summaryDf [sampleRecord2, sampleRecord1] :=
  ⟨List.Perm.swap sampleRecord2 sampleRecord1 [],
    C6_summary_perm_invariant [sampleRecord1, sampleRecord2]
      [sampleRecord2, sampleRecord1] (List.Perm.swap sampleRecord2 sampleRecord1 [])⟩

/-- Claim C3: for every selected patient record each radar vector has
exactly 7 entries with entry 0 equal to entry 6; the two owning axes of a
metric carry the patient's Right and Left values and the four non-owning
axes are zero-filled; the angular axes sit at `2 * pi * i / 6` for
`i = 0 .. 5`, with axis 0 repeated to close the polygon. -/
theorem C3_radar_vectors (p : AudiogramRecord) :
    (ptaPlot p).length = 7
    ∧ (srtPlot p).length = 7
    ∧ (sdtPlot p).length = 7
    ∧ ptaPlot p = [p.PTA_Right, p.PTA_Left, 0, 0, 0, 0, p.PTA_Right]
    ∧ srtPlot p = [0, 0, p.SRT_Right, p.SRT_Left, 0, 0, 0]
    ∧ sdtPlot p = [0, 0, 0, 0, p.SDT_Right, p.SDT_Left, 0]
    ∧ (ptaPlot p).head? = (ptaPlot p).getLast?
    ∧ (srtPlot p).head? = (srtPlot p).getLast?
    ∧ (sdtPlot p).head? = (sdtPlot p).getLast?
    ∧ anglesList.length = 7
    ∧ anglesList = [2 * Real.pi * 0 / 6, 2 * Real.pi * 1 / 6, 2 * Real.pi * 2 / 6,
        2 * Real.pi * 3 / 6, 2 * Real.pi * 4 / 6, 2 * Real.pi * 5 / 6,
        2 * Real.pi * 0 / 6] := by
  have hang : anglesList = [2 * Real.pi * 0 / 6, 2 * Real.pi * 1 / 6,
      2 * Real.pi * 2 / 6, 2 * Real.pi * 3 / 6, 2 * Real.pi * 4 / 6,
      2 * Real.pi * 5 / 6, 2 * Real.pi * 0 / 6] := by
    have hrange : List.range axisLabels.length = [0, 1, 2, 3, 4, 5] := rfl
    unfold anglesList
    rw [hrange]
    norm_num [axisLabels]
    ring_nf
    simp
  refine ⟨rfl, rfl, rfl, rfl, rfl, rfl, rfl, rfl, rfl, ?_, hang⟩
  rw [hang]
  rfl

end Audiogram
